import Mathlib

/-!
Verification of the voter-lookup scraper `gop_voter_lookup.py`.

Python strings are modelled as `List Char`; Python string methods (`strip`,
`split`, `startswith`, the `in` containment test, `lower`, ...) are embedded
as executable Lean functions with Python's semantics.  DOM access through the
browser driver is modelled at the locator boundary: each extraction routine
receives the texts that the corresponding locators would produce (as `Option`
values, `none` meaning the locator found no element), and the pure
normalisation / field-mapping logic that the Python code performs on those
texts is embedded directly.
-/

namespace GopLookup

/-- Python `str` is modelled as a list of characters. -/
abbrev Str := List Char

/-- Characters stripped by Python `str.strip()` and matched by the regex
class `\s` (ASCII fragment). -/
def pyIsSpace (c : Char) : Bool :=
  c == ' ' || c == '\t' || c == '\n' || c == '\r' || c == '\x0b' || c == '\x0c'

/-- Python `str.lower()` (ASCII). -/
def pyLower (s : Str) : Str := s.map Char.toLower

/-- Python `s.startswith(pre)`: first argument is `s`, second the prefix. -/
def pyStartswith : Str → Str → Bool
  | _, [] => true
  | [], _ :: _ => false
  | c :: cs, p :: ps => c == p && pyStartswith cs ps

/-- Python `sub in s` substring containment: `pyContains s sub`. -/
def pyContains : Str → Str → Bool
  | [], sub => sub.isEmpty
  | c :: t, sub => pyStartswith (c :: t) sub || pyContains t sub

/-- Python `str.lstrip()`. -/
def pyLstrip (s : Str) : Str := s.dropWhile pyIsSpace

/-- Python `str.strip()`: whitespace removed from both ends. -/
def pyStrip (s : Str) : Str :=
  ((s.dropWhile pyIsSpace).reverse.dropWhile pyIsSpace).reverse

/-- Python `s.split('\n')`. -/
def splitNl : Str → List Str
  | [] => [[]]
  | c :: t => if c = '\n' then [] :: splitNl t else (splitNl t).modifyHead (c :: ·)

/-- Python `s.split()` with fuel (structural recursion so that concrete
inputs evaluate by kernel reduction). -/
def pySplitWSGo : Nat → Str → List Str
  | 0, _ => []
  | fuel + 1, s =>
    match s.dropWhile pyIsSpace with
    | [] => []
    | c :: t => (c :: t.takeWhile (fun d => !pyIsSpace d)) ::
        pySplitWSGo fuel (t.dropWhile (fun d => !pyIsSpace d))

/-- Python `s.split()` (split on whitespace runs, no empty fields). -/
def pySplitWS (s : Str) : List Str := pySplitWSGo (s.length + 1) s

/-- Python `" ".join(parts)`. -/
def joinSpace (parts : List Str) : Str := List.intercalate ((" ").toList) parts

/-- Split off the text before and after the first occurrence of `sep` in `s`
(`none` when `sep` does not occur).  Helper for Python `str.split(sep)`. -/
def splitFirst (sep : Str) : Str → Option (Str × Str)
  | [] => none
  | c :: t =>
    if pyStartswith (c :: t) sep then some ([], (c :: t).drop sep.length)
    else (splitFirst sep t).map (fun p => (c :: p.1, p.2))

/-- Python `s.split(sep)` for a non-empty separator, fuelled recursion. -/
def pySplitOnGo (sep : Str) : Nat → Str → List Str
  | 0, s => [s]
  | fuel + 1, s =>
    match splitFirst sep s with
    | none => [s]
    | some (p, q) => p :: pySplitOnGo sep fuel q

/-- Python `s.split(sep)` (for the non-empty separators the script uses). -/
def pySplitOn (sep s : Str) : List Str := pySplitOnGo sep (s.length + 1) s

/-!  ## Record model

`VoterRecord` (summary) and `DetailedVoterRecord` mirror the two dataclasses;
`Optional[str] = None` fields become `Option Str` defaulting to `none`.
-/

/-- The `VoterRecord` dataclass (basic information from search results). -/
structure VoterRecord where
  name : Str
  address : Str
  city : Str
  state : Str
  zip_code : Str
  phone : Option Str := none
  date_of_birth : Option Str := none
  calculated_party : Option Str := none
  view_voter_url : Option Str := none
  voter_id : Option Str := none
  precinct : Option Str := none
  status : Option Str := none
  deriving Repr, DecidableEq

/-- The `DetailedVoterRecord` dataclass (comprehensive detail-page data).
`vote_history : Dict[str, Dict[str, str]]` is modelled as association lists. -/
structure DetailedVoterRecord where
  name : Str
  first_name : Option Str := none
  middle_name : Option Str := none
  last_name : Option Str := none
  birthday : Option Str := none
  age : Option Str := none
  gender : Option Str := none
  mobile_phone : Option Str := none
  mobile_phone_reliability : Option Str := none
  landline_phone : Option Str := none
  landline_phone_reliability : Option Str := none
  primary_address : Option Str := none
  secondary_address : Option Str := none
  facebook : Option Str := none
  instagram : Option Str := none
  twitter : Option Str := none
  registration_status : Option Str := none
  registration_date : Option Str := none
  last_activity_date : Option Str := none
  official_party : Option Str := none
  observed_party : Option Str := none
  calculated_party : Option Str := none
  absentee_status : Option Str := none
  state_reported_ethnicity : Option Str := none
  modeled_ethnicity : Option Str := none
  observed_ethnicity : Option Str := none
  gopdc_voter_key : Option Str := none
  rnc_client_id : Option Str := none
  state_voter_id : Option Str := none
  jurisdictional_voter_id : Option Str := none
  rnc_registration_id : Option Str := none
  congressional_district : Option Str := none
  senate_district : Option Str := none
  legislative_district : Option Str := none
  jurisdiction : Option Str := none
  precinct : Option Str := none
  precinct_number : Option Str := none
  custom_districts : Option (List Str) := none
  early_vote_date : Option Str := none
  vote_history : Option (List (Str × List (Str × Str))) := none
  overall_frequency : Option Str := none
  general_frequency : Option Str := none
  primary_frequency : Option Str := none
  voter_regularity_general : Option Str := none
  voter_regularity_primary : Option Str := none
  dma : Option Str := none
  census_block : Option Str := none
  turf : Option Str := none
  tags : Option (List Str) := none
  notes : Option (List Str) := none
  deriving Repr, DecidableEq

/-- Python truthiness of an `Optional[str]` field: `None` and `""` are falsy.
Used by every `if not detailed_record.f:` "only set if not already set" guard. -/
def falsyOpt : Option Str → Bool
  | none => true
  | some v => v.isEmpty

/-!  ## Result row parser (`_extract_results`, lines 719-826)

A result row is modelled by the rendered text its `inner_text()` call returns
and the markup its `inner_html()` call returns.
-/

/-- One `<tr>` of the results table: rendered text and raw markup. -/
structure Row where
  text : Str
  html : Str
  deriving Repr, DecidableEq

/-- Try to match the regex `OpenUserWindow\s*\(\s*(\d+)\s*\)` at the start of
`s`, returning the digit group.  (Backtracking cannot produce any other
match here: a shorter digit run would leave a digit where `\s*\)` must
match.) -/
def owMatchHere (s : Str) : Option Str :=
  if pyStartswith s (("OpenUserWindow").toList) then
    let r1 := (s.drop (("OpenUserWindow").toList).length).dropWhile pyIsSpace
    match r1 with
    | '(' :: r2 =>
      let r3 := r2.dropWhile pyIsSpace
      let ds := r3.takeWhile Char.isDigit
      if ds.isEmpty then none
      else
        match (r3.drop ds.length).dropWhile pyIsSpace with
        | ')' :: _ => some ds
        | _ => none
    | _ => none
  else none

/-- `re.search(r'OpenUserWindow\s*\(\s*(\d+)\s*\)', html)`: leftmost match of
the pattern, returning the captured digit string. -/
def owSearch : Str → Option Str
  | [] => none
  | c :: t =>
    match owMatchHere (c :: t) with
    | some d => some d
    | none => owSearch t

/-- URL prefix used to build `view_voter_url` from the matched record id. -/
def recordUrlPrefix : Str :=
  ("https://www.gopdatacenter.com/rnc/RecordLookup/RecordMaintenance.aspx?id=").toList

/-- The `view_voter_url` a row yields: the detail URL when the
`OpenUserWindow(N)` pattern is found in the row markup, else the initial
empty string. -/
def viewVoterUrlOf (html : Str) : Str :=
  match owSearch html with
  | some recordId => recordUrlPrefix ++ recordId
  | none => []

/-- A trailing line is a phone marker when it starts with `(`. -/
def phoneLineTest (l : Str) : Bool := pyStartswith l (("(").toList)

/-- A trailing line is a date-of-birth marker when it is not a phone marker
and contains `DOB:` (the `elif` chain checks the phone shape first). -/
def dobLineTest (l : Str) : Bool :=
  !phoneLineTest l && pyContains l (("DOB:").toList)

/-- A trailing line is a party marker when neither earlier test matched and
it contains `Calculated Party:`. -/
def partyLineTest (l : Str) : Bool :=
  !phoneLineTest l && !pyContains l (("DOB:").toList) &&
    pyContains l (("Calculated Party:").toList)

/-- `line.split("DOB:")[-1].strip()`. -/
def dobValueOf (l : Str) : Str :=
  pyStrip ((pySplitOn (("DOB:").toList) l).getLastD [])

/-- `line.split(":")[-1].strip()`. -/
def partyValueOf (l : Str) : Str :=
  pyStrip ((pySplitOn ((":").toList) l).getLastD [])

/-- One step of the trailing-line marker scan (the `for line in
lines[start_idx + 3:]` loop): state is `(phone, dob, party)`. -/
def scanStep (st : Str × Str × Str) (line : Str) : Str × Str × Str :=
  if pyStartswith line (("(").toList) then (line, st.2.1, st.2.2)
  else if pyContains line (("DOB:").toList) then
    (st.1, dobValueOf line, st.2.2)
  else if pyContains line (("Calculated Party:").toList) then
    (st.1, st.2.1, partyValueOf line)
  else st

/-- The whole marker scan over the trailing lines of a row, starting from the
initial `phone = dob = party = ""`. -/
def scanMarkers (lines : List Str) : Str × Str × Str :=
  lines.foldl scanStep ([], [], [])

/-- The `city, state, zip` parse of the third positional line. -/
def parseCityStateZip (cityStateZip : Str) : Str × Str × Str :=
  if cityStateZip.isEmpty then ([], [], [])
  else
    let parts := pySplitWS cityStateZip
    if 3 ≤ parts.length then
      (joinSpace (parts.take (parts.length - 2)),
       parts.getD (parts.length - 2) [],
       parts.getD (parts.length - 1) [])
    else ([], [], [])

/-- Action-column labels that shift the positional lines by one. -/
def actionLabels : List Str :=
  [("view").toList, ("select").toList, ("view voter").toList]

/-- `lines = row_text.strip().split('\n')`. -/
def codeLines (row : Row) : List Str := splitNl (pyStrip row.text)

/-- The action-column offset: `1` when the first line is a known button
label or blank, else `0`. -/
def rowStartIdx (lines : List Str) : Nat :=
  if actionLabels.contains (pyLower (lines.getD 0 [])) ||
      (pyStrip (lines.getD 0 [])).isEmpty then 1
  else 0

/-- The trailing metadata lines `lines[start_idx + 3:]` of a row. -/
def trailingLines (row : Row) : List Str :=
  (codeLines row).drop (rowStartIdx (codeLines row) + 3)

/-- The per-row body of `_extract_results`: split the rendered text into
lines, skip non-data rows, read the three positional lines, scan the
trailing markers, and recover the detail URL from the markup.  Returns
`none` when the row is skipped. -/
def parseRow (row : Row) : Option VoterRecord :=
  let lines := codeLines row
  if lines.length < 2 || lines.all (fun l => (pyStrip l).isEmpty) then none
  else
    let startIdx := rowStartIdx lines
    let nameLine := lines.getD startIdx []
    let addressLine := lines.getD (startIdx + 1) []
    let cityStateZip := lines.getD (startIdx + 2) []
    let markers := scanMarkers (trailingLines row)
    let csz := parseCityStateZip cityStateZip
    some
      { name := pyStrip nameLine
        address := pyStrip addressLine
        city := csz.1
        state := csz.2.1
        zip_code := csz.2.2
        phone := some markers.1
        date_of_birth := some markers.2.1
        calculated_party := some markers.2.2
        view_voter_url := some (viewVoterUrlOf row.html) }

/-- The row loop of `_extract_results`: rows from `start_row` on are parsed,
skipped rows produce nothing (`start_row` is `1` when no `tbody` was found,
so that the header row is skipped, and `0` for `tbody` rows). -/
def extractResults (startRow : Nat) (rows : List Row) : List VoterRecord :=
  (rows.drop startRow).filterMap parseRow

/-!  ## Detail-page field extractors

Each `_extract_*` routine is embedded over the texts its locators return:
an article is modelled as a structure of `Option Str` inputs (`none` when the
corresponding locator matched no element, `some t` when `inner_text()`
returned `t`).
-/

/-- The sentinel placeholder the site emits for missing data. -/
def noDataProvided : Str := ("No Data Provided").toList

/-- The prefix the code actually tests with `value.startswith("No Data")`. -/
def noDataPrefix : Str := ("No Data").toList

/-- Locator results for the Personal Info article (`span[id*="lblFirstName"]`
and friends). -/
structure PersonalArticle where
  lblFirstName : Option Str := none
  lblMiddleName : Option Str := none
  lblLastName : Option Str := none
  lblBirthday : Option Str := none
  lblAge : Option Str := none
  lblGender : Option Str := none

/-- `_extract_personal_info` (lines 1046-1089): each present span is copied
into the record unconditionally; the display name is rebuilt from the parts
that are present. -/
def extractPersonalInfo (a : PersonalArticle) (r0 : DetailedVoterRecord) :
    DetailedVoterRecord :=
  let r1 := match a.lblFirstName with
    | some v => { r0 with first_name := some v }
    | none => r0
  let r2 := match a.lblMiddleName with
    | some v => { r1 with middle_name := some v }
    | none => r1
  let r3 := match a.lblLastName with
    | some v => { r2 with last_name := some v }
    | none => r2
  let r4 :=
    if !falsyOpt r3.first_name || !falsyOpt r3.last_name then
      let parts := [r3.first_name, r3.middle_name, r3.last_name].filterMap
        (fun o => if falsyOpt o then none else o)
      { r3 with name := joinSpace parts }
    else r3
  let r5 := match a.lblBirthday with
    | some v => { r4 with birthday := some v }
    | none => r4
  let r6 := match a.lblAge with
    | some v => { r5 with age := some v }
    | none => r5
  match a.lblGender with
  | some v => { r6 with gender := some v }
  | none => r6

/-- One `.col-xs-12.col-sm-3` phone container of the Contact Info article:
first `h6` text, `span[id*="lblPhone"]` text, `span[id*="lblTRC"]` text. -/
structure PhoneContainer where
  h6 : Option Str := none
  lblPhone : Option Str := none
  lblTRC : Option Str := none

/-- One `div[id*="rptSocial"]` repeater of the Contact Info article. -/
structure SocialContainer where
  h6 : Option Str := none
  lblSocial : Option Str := none

/-- Locator results for the Contact Info article. -/
structure ContactArticle where
  phones : List PhoneContainer := []
  lblPrimaryAddress : Option Str := none
  lblPrimaryCityStZip : Option Str := none
  lblSecondaryAddress : Option Str := none
  lblSecondaryCityStZip : Option Str := none
  socials : List SocialContainer := []

/-- The per-container body of the phone loop in `_extract_contact_info`
(lines 1098-1126): values starting with `"No Data"` are rejected, and a
phone field is only written while it is still unset. -/
def contactPhoneStep (r : DetailedVoterRecord) (c : PhoneContainer) :
    DetailedVoterRecord :=
  match c.h6, c.lblPhone with
  | some phoneType, some phoneNumber =>
    if pyContains phoneType (("Mobile Phone").toList) &&
        !pyStartswith phoneNumber noDataPrefix then
      if falsyOpt r.mobile_phone then
        let r' := { r with mobile_phone := some phoneNumber }
        match c.lblTRC with
        | some trc =>
          if !trc.isEmpty then { r' with mobile_phone_reliability := some trc }
          else r'
        | none => r'
      else r
    else if pyContains phoneType (("Landline Phone").toList) &&
        !pyStartswith phoneNumber noDataPrefix then
      if falsyOpt r.landline_phone then
        let r' := { r with landline_phone := some phoneNumber }
        match c.lblTRC with
        | some trc =>
          if !trc.isEmpty then { r' with landline_phone_reliability := some trc }
          else r'
        | none => r'
      else r
    else r
  | _, _ => r

/-- The per-repeater body of the social-media loop in `_extract_contact_info`
(lines 1156-1175): empty values and values starting with `"No Data"` are
rejected; the handle fields themselves are assigned unconditionally. -/
def contactSocialStep (r : DetailedVoterRecord) (c : SocialContainer) :
    DetailedVoterRecord :=
  match c.h6, c.lblSocial with
  | some socialType, some socialValue =>
    if !socialValue.isEmpty && !pyStartswith socialValue noDataPrefix then
      if pyContains socialType (("Facebook").toList) then
        { r with facebook := some socialValue }
      else if pyContains socialType (("Instagram").toList) then
        { r with instagram := some socialValue }
      else if pyContains socialType (("Twitter").toList) then
        { r with twitter := some socialValue }
      else r
    else r
  | _, _ => r

/-- `_extract_contact_info` (lines 1091-1179): phone containers, the two
addresses, then the social repeaters. -/
def extractContactInfo (a : ContactArticle) (r0 : DetailedVoterRecord) :
    DetailedVoterRecord :=
  let r1 := a.phones.foldl contactPhoneStep r0
  let r2 := match a.lblPrimaryAddress with
    | some addr =>
      match a.lblPrimaryCityStZip with
      | some csz =>
        { r1 with primary_address := some (addr ++ (", ").toList ++ csz) }
      | none => { r1 with primary_address := some addr }
    | none => r1
  let r3 := match a.lblSecondaryAddress with
    | some addr =>
      match a.lblSecondaryCityStZip with
      | some csz =>
        { r2 with secondary_address := some (addr ++ (", ").toList ++ csz) }
      | none => { r2 with secondary_address := some addr }
    | none => r2
  a.socials.foldl contactSocialStep r3

/-- Locator results for the Voter Identification article. -/
structure IdentArticle where
  lblVoterId : Option Str := none
  lblClientId : Option Str := none
  lblStateVoterId : Option Str := none
  lblRegistrationId : Option Str := none
  lblRncRegId : Option Str := none

/-- `_extract_voter_identification` (lines 1244-1276): four IDs are copied
unconditionally; the jurisdictional voter id (from
`span[id*="lblRegistrationId"]`) is dropped when it starts with
`"No Data"`. -/
def extractVoterIdentification (a : IdentArticle) (r0 : DetailedVoterRecord) :
    DetailedVoterRecord :=
  let r1 := match a.lblVoterId with
    | some v => { r0 with gopdc_voter_key := some v }
    | none => r0
  let r2 := match a.lblClientId with
    | some v => { r1 with rnc_client_id := some v }
    | none => r1
  let r3 := match a.lblStateVoterId with
    | some v => { r2 with state_voter_id := some v }
    | none => r2
  let r4 := match a.lblRegistrationId with
    | some v =>
      if !pyStartswith v noDataPrefix then
        { r3 with jurisdictional_voter_id := some v }
      else r3
    | none => r3
  match a.lblRncRegId with
  | some v => { r4 with rnc_registration_id := some v }
  | none => r4

/-!  ## Generic fallback extractor (`_extract_generic_info`, lines 1426-1494)

The regex scan over the article text yields an ordered list of
`(label, value)` matches; the embedded function models the loop body that
processes those matches.  Several branches of the label-dispatch chain read
attributes that do not exist on `DetailedVoterRecord` (`email`, `home_phone`,
`work_phone`, `cell_phone`, `address`, `city`, `state`, `zip`,
`party_affiliation`, `voter_id`, `employer`, `occupation`); in Python this
raises `AttributeError` while the branch condition is evaluated, which the
routine's surrounding `except` catches — processing of the remaining matches
stops and the record keeps exactly the mutations applied so far.  `GenStep.err`
models that exception. -/

/-- Outcome of processing one `(label, value)` match: `ok` continues the
loop, `err` models the uncaught-in-loop `AttributeError`.  In every `err`
branch the error is raised while evaluating the branch condition, before any
assignment, so the carried record is unchanged. -/
inductive GenStep where
  | ok (r : DetailedVoterRecord)
  | err (r : DetailedVoterRecord)
  deriving Repr, DecidableEq

/-- The value filter guarding the chain:
`if value and len(value) > 0 and value.lower() not in ['', 'n/a', 'none', 'null']`. -/
def genericValueOk (value : Str) : Bool :=
  !value.isEmpty &&
    !([[], ("n/a").toList, ("none").toList, ("null").toList].contains
      (pyLower value))

/-- The label-dispatch chain of `_extract_generic_info` applied to one
stripped `(label, value)` match.  Conditions are evaluated in source order
with Python short-circuiting; a branch whose right conjunct would read a
nonexistent attribute is only an error when its substring tests succeed. -/
def processMatch (r : DetailedVoterRecord) (m : Str × Str) : GenStep :=
  let label := pyStrip m.1
  let value := pyStrip m.2
  if genericValueOk value then
    let l := pyLower label
    if pyContains l (("first name").toList) && falsyOpt r.first_name then
      .ok { r with first_name := some value }
    else if pyContains l (("middle name").toList) && falsyOpt r.middle_name then
      .ok { r with middle_name := some value }
    else if pyContains l (("last name").toList) && falsyOpt r.last_name then
      .ok { r with last_name := some value }
    else if pyContains l (("email").toList) then .err r
    else if pyContains l (("phone").toList) && pyContains l (("home").toList) then .err r
    else if pyContains l (("phone").toList) && pyContains l (("work").toList) then .err r
    else if pyContains l (("phone").toList) && pyContains l (("cell").toList) then .err r
    else if pyContains l (("address").toList) then .err r
    else if pyContains l (("city").toList) then .err r
    else if pyContains l (("state").toList) then .err r
    else if pyContains l (("zip").toList) then .err r
    else if pyContains l (("party").toList) then .err r
    else if pyContains l (("precinct").toList) && falsyOpt r.precinct then
      .ok { r with precinct := some value }
    else if pyContains l (("voter id").toList) then .err r
    else if pyContains l (("registration").toList) && pyContains l (("date").toList)
        && falsyOpt r.registration_date then
      .ok { r with registration_date := some value }
    else if pyContains l (("birthday").toList) ||
        (pyContains l (("birth").toList) && falsyOpt r.birthday) then
      .ok { r with birthday := some value }
    else if pyContains l (("gender").toList) && falsyOpt r.gender then
      .ok { r with gender := some value }
    else if pyContains l (("employer").toList) then .err r
    else if pyContains l (("occupation").toList) then .err r
    else .ok r
  else .ok r

/-- The match loop: processing stops at the first `AttributeError`. -/
def genericRun (r : DetailedVoterRecord) : List (Str × Str) → GenStep
  | [] => .ok r
  | m :: ms =>
    match processMatch r m with
    | .ok r' => genericRun r' ms
    | .err r' => .err r'

/-- Net effect of `_extract_generic_info` on the record for a given match
list: the surrounding handler catches the `AttributeError`, so the record
keeps whatever was applied before the error. -/
def genericInfo (r : DetailedVoterRecord) (ms : List (Str × Str)) :
    DetailedVoterRecord :=
  match genericRun r ms with
  | .ok r' => r'
  | .err r' => r'

/-!  ## Google Sheets integration (`GoogleSheetsManager` and the `--sheets`
branch of `main`)

A spreadsheet cell is `Option Str`: `none` when the Sheets API returns no
value for the range (an empty cell), `some s` for a cell holding `s`. -/

/-- `check_row_already_processed` (lines 420-443): the row counts as
processed exactly when the results-start-column cell holds a value that is
non-empty after stripping. -/
def checkRowAlreadyProcessed (cell : Option Str) : Bool :=
  match cell with
  | none => false
  | some v => !(pyStrip v).isEmpty

/-- One valid entry produced by `read_column`: the stripped name and its
spreadsheet row number. -/
structure SheetEntry where
  name : Str
  row : Nat
  deriving Repr, DecidableEq

/-- Python truthiness of the `--row-limit` argument: `None` and `0` impose
no limit (`if row_limit and count >= row_limit`). -/
def rowLimitHit (rowLimit : Option Nat) (count : Nat) : Bool :=
  match rowLimit with
  | none => false
  | some l => l != 0 && l ≤ count

/-- The row loop of `read_column` (lines 269-289) over the name-column cells
starting at `startRow`: blank cells are skipped, valid names are collected
stripped with their row numbers, and reading stops once `row_limit` valid
entries were taken. -/
def readColumn (rowLimit : Option Nat) : List (Option Str) → Nat → Nat →
    List SheetEntry
  | [], _, _ => []
  | cell :: rest, rowNum, count =>
    match cell with
    | none => readColumn rowLimit rest (rowNum + 1) count
    | some v =>
      if (pyStrip v).isEmpty then readColumn rowLimit rest (rowNum + 1) count
      else
        let entry : SheetEntry := ⟨pyStrip v, rowNum⟩
        if rowLimitHit rowLimit (count + 1) then [entry]
        else entry :: readColumn rowLimit rest (rowNum + 1) (count + 1)

/-- Outcome of the per-voter loop in the `--sheets` branch of `main`
(lines 1782-1843): which rows were searched and which rows received a
spreadsheet update, plus the final processed count. -/
structure SheetRunOutcome where
  processedCount : Nat
  searchedRows : List Nat
  updatedRows : List Nat
  deriving Repr, DecidableEq

/-- The per-voter loop of the `--sheets` branch: a row whose
results-start-column cell is already populated is skipped without a search
but still counts toward the row limit; otherwise the voter is searched and,
when any result came back, `update_row` is called for that row.  The loop
breaks as soon as the processed count reaches the row limit. -/
def sheetLoop (rowLimit : Option Nat) (resultCell : Nat → Option Str)
    (search : Str → List VoterRecord) : List SheetEntry → Nat →
    SheetRunOutcome
  | [], count => ⟨count, [], []⟩
  | e :: rest, count =>
    if checkRowAlreadyProcessed (resultCell e.row) then
      let count' := count + 1
      if rowLimitHit rowLimit count' then ⟨count', [], []⟩
      else sheetLoop rowLimit resultCell search rest count'
    else
      let results := search e.name
      let upd : List Nat := if results.isEmpty then [] else [e.row]
      let count' := count + 1
      if rowLimitHit rowLimit count' then ⟨count', [e.row], upd⟩
      else
        let o := sheetLoop rowLimit resultCell search rest count'
        ⟨o.processedCount, e.row :: o.searchedRows, upd ++ o.updatedRows⟩

/-!  ## Detail navigation (`_extract_detailed_info_for_row`, lines 828-962)

Browser navigation is abstracted to its observable outcomes: whether a
direct detail URL was recovered from the row markup, whether a View Voter
button exists, whether clicking it opens a new tab or navigates the current
page, whether the detail-page marker `article#personal-info` is present
after navigation, and what `_extract_detailed_voter_info` returns. -/

structure DetailNav where
  hasUrl : Bool
  buttonFound : Bool
  clickOpensTab : Bool
  markerPresent : Bool
  extracted : Option DetailedVoterRecord
  deriving Repr, DecidableEq

/-- Observable outcome of one detail visit: the returned record (if any),
whether a new tab was opened, whether it was closed again, and whether the
driver navigated back on the original page. -/
structure NavOutcome where
  result : Option DetailedVoterRecord
  openedTab : Bool
  closedTab : Bool
  wentBack : Bool
  deriving Repr, DecidableEq

/-- Control flow of `_extract_detailed_info_for_row`: with a recovered URL a
new tab is always opened; without one the button is clicked (returning
`none` when no button is found) and the click either opens a tab or
navigates in place.  The `article#personal-info` sanity check aborts with
`None` when it fails; only after extraction is the new tab closed (or the
current page navigated back). -/
def extractDetailedInfoForRow (nav : DetailNav) : NavOutcome :=
  if nav.hasUrl then
    if !nav.markerPresent then ⟨none, true, false, false⟩
    else ⟨nav.extracted, true, true, false⟩
  else if !nav.buttonFound then ⟨none, false, false, false⟩
  else
    let opened := nav.clickOpensTab
    if !nav.markerPresent then ⟨none, opened, false, false⟩
    else if opened then ⟨nav.extracted, true, true, false⟩
    else ⟨nav.extracted, false, false, true⟩

/-!  ## Theorems -/

/-- C3: for a "city state zip" line (one whose whitespace-split has a city,
a state and a zip, i.e. at least three tokens), the parser takes the last
two tokens as state and zip and joins the remaining leading tokens as the
city; in particular "Springfield IL 62704" and "New York NY 10001" parse as
in the claim, preserving the multi-word city name. -/
theorem claim_C3_city_state_zip :
    (∀ (s : Str) (ps : List Str) (a b : Str),
      pySplitWS s = ps ++ [a, b] → ps ≠ [] →
      parseCityStateZip s = (joinSpace ps, a, b)) ∧
    parseCityStateZip (("Springfield IL 62704").toList) =
      ((("Springfield").toList : Str), (("IL").toList : Str),
        (("62704").toList : Str)) ∧
    parseCityStateZip (("New York NY 10001").toList) =
      ((("New York").toList : Str), (("NY").toList : Str),
        (("10001").toList : Str)) := by
  refine ⟨?_, by decide, by decide⟩
  intro s ps a b hsplit hps
  have hsne : s ≠ [] := by
    intro h
    subst h
    rw [show pySplitWS [] = [] from rfl] at hsplit
    exact absurd hsplit.symm (by simp)
  have h1 : s.isEmpty = false := by
    cases s with
    | nil => exact absurd rfl hsne
    | cons c t => rfl
  rw [parseCityStateZip]
  simp only [h1, Bool.false_eq_true, if_false, hsplit]
  rw [if_pos (by have := List.length_pos.mpr hps; simp; omega)]
  have e1 : (ps ++ [a, b]).length - 2 = ps.length := by simp
  have e2 : (ps ++ [a, b]).length - 1 = ps.length + 1 := by simp
  rw [e1, e2, List.take_left]
  have g1 : (ps ++ [a, b]).getD ps.length [] = a := by
    simp [List.getD, List.getElem?_append_right, List.getElem_append_right]
  have g2 : (ps ++ [a, b]).getD (ps.length + 1) [] = b := by
    simp only [List.getD, List.get?_eq_getElem?]
    rw [List.getElem?_append_right (by omega)]
    simp
  rw [g1, g2]

/-- C3 witness: the general clause applied to the concrete line
"Springfield IL 62704". -/
theorem claim_C3_witness :
    parseCityStateZip (("Springfield IL 62704").toList) =
      (joinSpace [("Springfield").toList], ("IL").toList, ("62704").toList) :=
  claim_C3_city_state_zip.1 (("Springfield IL 62704").toList)
    [("Springfield").toList] (("IL").toList) (("62704").toList)
    (by decide) (by decide)

/-- C4 counterexample: in a row whose trailing lines hold two phone-marker
lines, the parser stores the second one, not the first as the claim says. -/
theorem claim_C4_counterexample :
    (parseRow
      ⟨(("JOHN DOE\n123 MAIN ST\nSPRINGFIELD IL 62704\n(111) 111-1111\n(222) 222-2222").toList),
        []⟩).map (fun r => r.phone) =
      some (some (("(222) 222-2222").toList)) ∧
    (("(222) 222-2222").toList : Str) ≠ (("(111) 111-1111").toList) := by
  decide

/-- Closed form of the marker-scan fold: each component holds the last
matching line's value, seeded by the initial state. -/
theorem scanStep_foldl (ls : List Str) (st : Str × Str × Str) :
    ls.foldl scanStep st =
      ((ls.filter phoneLineTest).getLastD st.1,
       ((ls.filter dobLineTest).map dobValueOf).getLastD st.2.1,
       ((ls.filter partyLineTest).map partyValueOf).getLastD st.2.2) := by
  induction ls generalizing st with
  | nil => simp
  | cons l t ih =>
      rw [List.foldl_cons, ih]
      by_cases hp : pyStartswith l (("(").toList) = true
      · have hp1 : phoneLineTest l = true := hp
        have hd1 : dobLineTest l = false := by
          simp only [dobLineTest, hp1, Bool.not_true, Bool.false_and]
        have hc1 : partyLineTest l = false := by
          simp only [partyLineTest, hp1, Bool.not_true, Bool.false_and]
        rw [List.filter_cons_of_pos hp1,
          List.filter_cons_of_neg (by simp [hd1]),
          List.filter_cons_of_neg (by simp [hc1]), List.getLastD_cons]
        simp only [scanStep, if_pos hp]
      · have hp0 : pyStartswith l (("(").toList) = false :=
          Bool.not_eq_true _ ▸ eq_false_of_ne_true hp
        have hp1 : phoneLineTest l = false := hp0
        by_cases hd : pyContains l (("DOB:").toList) = true
        · have hd1 : dobLineTest l = true := by
            simp only [dobLineTest, hp1, Bool.not_false, Bool.true_and, hd]
          have hc1 : partyLineTest l = false := by
            simp only [partyLineTest, hp1, Bool.not_false, Bool.true_and, hd,
              Bool.not_true, Bool.false_and]
          rw [List.filter_cons_of_neg (by simp [hp1]),
            List.filter_cons_of_pos hd1,
            List.filter_cons_of_neg (by simp [hc1]), List.map_cons,
            List.getLastD_cons]
          simp only [scanStep, hp0, Bool.false_eq_true, if_false, if_pos hd]
        · have hd0 : pyContains l (("DOB:").toList) = false :=
            eq_false_of_ne_true hd
          have hd1 : dobLineTest l = false := by
            simp only [dobLineTest, hd0, Bool.and_false]
          by_cases hc : pyContains l (("Calculated Party:").toList) = true
          · have hc1 : partyLineTest l = true := by
              simp only [partyLineTest, hp1, Bool.not_false, Bool.true_and,
                hd0, hc]
            rw [List.filter_cons_of_neg (by simp [hp1]),
              List.filter_cons_of_neg (by simp [hd1]),
              List.filter_cons_of_pos hc1, List.map_cons, List.getLastD_cons]
            simp only [scanStep, hp0, hd0, Bool.false_eq_true, if_false,
              if_pos hc]
          · have hc0 : pyContains l (("Calculated Party:").toList) = false :=
              eq_false_of_ne_true hc
            have hc1 : partyLineTest l = false := by
              simp only [partyLineTest, hc0, Bool.and_false]
            rw [List.filter_cons_of_neg (by simp [hp1]),
              List.filter_cons_of_neg (by simp [hd1]),
              List.filter_cons_of_neg (by simp [hc1])]
            simp only [scanStep, hp0, hd0, hc0, Bool.false_eq_true, if_false]

/-- C4 amended: for each marker type the last matching line determines the
stored value (each later match overwrites the earlier one); a line is
classified by the first test of the `if`/`elif` chain that it satisfies. -/
theorem claim_C4_last_match_wins (lines : List Str) :
    scanMarkers lines =
      ((lines.filter phoneLineTest).getLastD [],
       ((lines.filter dobLineTest).map dobValueOf).getLastD [],
       ((lines.filter partyLineTest).map partyValueOf).getLastD []) :=
  scanStep_foldl lines ([], [], [])

/-- A data row without markers or a detail call, used for C5. -/
def c5Row : Row :=
  ⟨("JANE ROE\n45 OAK AVE\nSPRINGFIELD IL 62704").toList,
    ("<td>row</td>").toList⟩

/-- C5 counterexample: for `c5Row`, which has no phone / DOB / party marker
and no `OpenUserWindow` call, the parser stores the empty string (a present
value) in every one of those fields, not `none` as the claim requires. -/
theorem claim_C5_counterexample :
    (parseRow c5Row).map
        (fun r => (r.phone, r.date_of_birth, r.calculated_party,
          r.view_voter_url)) =
      some (some [], some [], some [], some []) ∧
    some ([] : Str) ≠ (none : Option Str) := by
  decide

/-- C5 amended: when a marker or the detail reference is absent from a row,
the produced record stores the empty string in the corresponding field —
a present-but-empty value, never an unset `none`. -/
theorem claim_C5_empty_string_for_missing (row : Row) (r : VoterRecord)
    (h : parseRow row = some r) :
    ((trailingLines row).all (fun l => !phoneLineTest l) = true →
      r.phone = some []) ∧
    ((trailingLines row).all
        (fun l => !pyContains l (("DOB:").toList)) = true →
      r.date_of_birth = some []) ∧
    ((trailingLines row).all
        (fun l => !pyContains l (("Calculated Party:").toList)) = true →
      r.calculated_party = some []) ∧
    (owSearch row.html = none → r.view_voter_url = some []) := by
  simp only [parseRow] at h
  split at h
  · exact absurd h (by simp)
  · have hr := Option.some.inj h
    subst hr
    refine ⟨?_, ?_, ?_, ?_⟩
    · intro hall
      have hfil : (trailingLines row).filter phoneLineTest = [] := by
        rw [List.filter_eq_nil_iff]
        intro a ha
        have := (List.all_eq_true.mp hall) a ha
        simp only [Bool.not_eq_true'] at this
        simp [this]
      show some (scanMarkers (trailingLines row)).1 = some []
      rw [scanMarkers, scanStep_foldl, hfil]
      rfl
    · intro hall
      have hfil : (trailingLines row).filter dobLineTest = [] := by
        rw [List.filter_eq_nil_iff]
        intro a ha
        have := (List.all_eq_true.mp hall) a ha
        simp only [Bool.not_eq_true'] at this
        simp only [dobLineTest, this, Bool.and_false]
        exact Bool.false_ne_true
      show some (scanMarkers (trailingLines row)).2.1 = some []
      rw [scanMarkers, scanStep_foldl, hfil]
      rfl
    · intro hall
      have hfil : (trailingLines row).filter partyLineTest = [] := by
        rw [List.filter_eq_nil_iff]
        intro a ha
        have := (List.all_eq_true.mp hall) a ha
        simp only [Bool.not_eq_true'] at this
        simp only [partyLineTest, this, Bool.and_false]
        exact Bool.false_ne_true
      show some (scanMarkers (trailingLines row)).2.2 = some []
      rw [scanMarkers, scanStep_foldl, hfil]
      rfl
    · intro hnone
      show some (viewVoterUrlOf row.html) = some []
      rw [viewVoterUrlOf, hnone]

/-- C5 witness: the amended theorem applied to the concrete marker-free row
`c5Row`. -/
theorem claim_C5_witness :
    (parseRow c5Row = some
      { name := ("JANE ROE").toList, address := ("45 OAK AVE").toList,
        city := ("SPRINGFIELD").toList, state := ("IL").toList,
        zip_code := ("62704").toList, phone := some [],
        date_of_birth := some [], calculated_party := some [],
        view_voter_url := some [] }) ∧
    ({ name := ("JANE ROE").toList, address := ("45 OAK AVE").toList,
        city := ("SPRINGFIELD").toList, state := ("IL").toList,
        zip_code := ("62704").toList, phone := some [],
        date_of_birth := some [], calculated_party := some [],
        view_voter_url := some [] } : VoterRecord).phone = some [] :=
  ⟨by decide,
    (claim_C5_empty_string_for_missing c5Row _ (by decide)).1 (by decide)⟩

/-- A data row whose markup carries `OpenUserWindow(12345)`, for C6. -/
def c6Row : Row :=
  ⟨("View\nABE LINCOLN\n10 ELM ST\nSPRINGFIELD IL 62704").toList,
    ("<input onclick=\"OpenUserWindow(12345);\">").toList⟩

/-- A data row without any `OpenUserWindow` call, for C6. -/
def c6RowNoCall : Row :=
  ⟨("ABE LINCOLN\n10 ELM ST\nSPRINGFIELD IL 62704").toList,
    ("<td>plain</td>").toList⟩

/-- C6 counterexample: for a row without an `OpenUserWindow` call the record
is still constructed, but its detail reference is the stored empty string,
not an unset `none` as the claim says. -/
theorem claim_C6_counterexample :
    (parseRow c6RowNoCall).map (fun r => r.view_voter_url) =
      some (some ([] : Str)) ∧
    some ([] : Str) ≠ (none : Option Str) := by
  decide

/-- C6 amended: a row whose markup matches `OpenUserWindow(N)` yields the
detail URL with `id=N` (for the leftmost match); a row without such a call
yields the empty-string reference (not `none`), and whether a record is
constructed at all never depends on the markup; `OpenUserWindow(12345)` in
markup is recovered as `12345`. -/
theorem claim_C6_detail_reference :
    (∀ (row : Row) (r : VoterRecord) (n : Str), parseRow row = some r →
      owSearch row.html = some n →
      r.view_voter_url = some (recordUrlPrefix ++ n)) ∧
    (∀ (row : Row) (r : VoterRecord), parseRow row = some r →
      owSearch row.html = none → r.view_voter_url = some []) ∧
    (∀ (text h1 h2 : Str),
      (parseRow ⟨text, h1⟩).isSome = (parseRow ⟨text, h2⟩).isSome) ∧
    owSearch (("<input onclick=\"OpenUserWindow(12345);\">").toList) =
      some (("12345").toList) := by
  refine ⟨?_, ?_, ?_, by decide⟩
  · intro row r n h hsome
    simp only [parseRow] at h
    split at h
    · exact absurd h (by simp)
    · have hr := Option.some.inj h
      subst hr
      show some (viewVoterUrlOf row.html) = some (recordUrlPrefix ++ n)
      rw [viewVoterUrlOf, hsome]
  · intro row r h hnone
    simp only [parseRow] at h
    split at h
    · exact absurd h (by simp)
    · have hr := Option.some.inj h
      subst hr
      show some (viewVoterUrlOf row.html) = some []
      rw [viewVoterUrlOf, hnone]
  · intro text h1 h2
    simp only [parseRow]
    have hsame : codeLines ⟨text, h1⟩ = codeLines ⟨text, h2⟩ := rfl
    rw [hsame]
    split
    · rfl
    · rfl

/-- Prefix transitivity: if `p` starts with `q` and `v` starts with `p`,
then `v` starts with `q`. -/
theorem pyStartswith_trans : ∀ (v p q : Str), pyStartswith p q = true →
    pyStartswith v p = true → pyStartswith v q = true
  | v, _, [], _, _ => by cases v <;> rfl
  | v, p, x :: qs, h1, h2 => by
    cases p with
    | nil => exact absurd h1 (by simp [pyStartswith])
    | cons a ps =>
      simp only [pyStartswith, Bool.and_eq_true, beq_iff_eq] at h1
      cases v with
      | nil => exact absurd h2 (by simp [pyStartswith])
      | cons b vs =>
        simp only [pyStartswith, Bool.and_eq_true, beq_iff_eq] at h2 ⊢
        exact ⟨by rw [h2.1, h1.1],
          pyStartswith_trans vs ps qs h1.2 h2.2⟩

/-- A stored optional field neither equals the "No Data Provided" sentinel
nor starts with it. -/
def sentinelFreeField (o : Option Str) : Prop :=
  ∀ v, o = some v →
    v ≠ noDataProvided ∧ pyStartswith v noDataProvided = false

/-- The six sentinel-filtered `DetailedVoterRecord` fields of C1 are all
sentinel-free. -/
def sentinelFreeC1 (r : DetailedVoterRecord) : Prop :=
  sentinelFreeField r.mobile_phone ∧ sentinelFreeField r.landline_phone ∧
  sentinelFreeField r.facebook ∧ sentinelFreeField r.instagram ∧
  sentinelFreeField r.twitter ∧ sentinelFreeField r.jurisdictional_voter_id

theorem sentinelFreeField_none : sentinelFreeField none :=
  fun _ hv => nomatch hv

/-- A value rejected by the code's `startswith("No Data")` test satisfies
the claim's stronger property for the full sentinel. -/
theorem sentinelFreeField_of_not_noData {v : Str}
    (h : pyStartswith v noDataPrefix = false) :
    sentinelFreeField (some v) := by
  intro w hw
  injection hw with hvw
  subst hvw
  constructor
  · intro he
    rw [he] at h
    exact absurd h (by decide)
  · by_contra hc
    rw [Bool.not_eq_false] at hc
    have hstep := pyStartswith_trans v noDataProvided noDataPrefix
      (by decide) hc
    rw [h] at hstep
    exact Bool.false_ne_true hstep

theorem contactPhoneStep_inv (r : DetailedVoterRecord) (c : PhoneContainer)
    (h : sentinelFreeC1 r) : sentinelFreeC1 (contactPhoneStep r c) := by
  obtain ⟨h1, h2, h3, h4, h5, h6f⟩ := h
  rcases c with ⟨ch6, cphone, ctrc⟩
  cases ch6 with
  | none => exact ⟨h1, h2, h3, h4, h5, h6f⟩
  | some pt =>
    cases cphone with
    | none => exact ⟨h1, h2, h3, h4, h5, h6f⟩
    | some pn =>
      simp only [contactPhoneStep]
      by_cases hm : (pyContains pt (("Mobile Phone").toList) &&
          !pyStartswith pn noDataPrefix) = true
      · have hnd : pyStartswith pn noDataPrefix = false := by
          have hh := (Bool.and_eq_true _ _).mp hm
          simpa using hh.2
        rw [if_pos hm]
        by_cases hset : falsyOpt r.mobile_phone = true
        · rw [if_pos hset]
          cases ctrc with
          | none =>
            exact ⟨sentinelFreeField_of_not_noData hnd, h2, h3, h4, h5, h6f⟩
          | some trc =>
            dsimp only
            by_cases ht : (!trc.isEmpty) = true
            · rw [if_pos ht]
              exact ⟨sentinelFreeField_of_not_noData hnd, h2, h3, h4, h5, h6f⟩
            · rw [if_neg ht]
              exact ⟨sentinelFreeField_of_not_noData hnd, h2, h3, h4, h5, h6f⟩
        · rw [if_neg hset]
          exact ⟨h1, h2, h3, h4, h5, h6f⟩
      · rw [if_neg hm]
        by_cases hl : (pyContains pt (("Landline Phone").toList) &&
            !pyStartswith pn noDataPrefix) = true
        · have hnd : pyStartswith pn noDataPrefix = false := by
            have hh := (Bool.and_eq_true _ _).mp hl
            simpa using hh.2
          rw [if_pos hl]
          by_cases hset : falsyOpt r.landline_phone = true
          · rw [if_pos hset]
            cases ctrc with
            | none =>
              exact ⟨h1, sentinelFreeField_of_not_noData hnd, h3, h4, h5, h6f⟩
            | some trc =>
              dsimp only
              by_cases ht : (!trc.isEmpty) = true
              · rw [if_pos ht]
                exact ⟨h1, sentinelFreeField_of_not_noData hnd, h3, h4, h5,
                  h6f⟩
              · rw [if_neg ht]
                exact ⟨h1, sentinelFreeField_of_not_noData hnd, h3, h4, h5,
                  h6f⟩
          · rw [if_neg hset]
            exact ⟨h1, h2, h3, h4, h5, h6f⟩
        · rw [if_neg hl]
          exact ⟨h1, h2, h3, h4, h5, h6f⟩

theorem contactSocialStep_inv (r : DetailedVoterRecord) (c : SocialContainer)
    (h : sentinelFreeC1 r) : sentinelFreeC1 (contactSocialStep r c) := by
  obtain ⟨h1, h2, h3, h4, h5, h6f⟩ := h
  rcases c with ⟨ch6, cval⟩
  cases ch6 with
  | none => exact ⟨h1, h2, h3, h4, h5, h6f⟩
  | some st =>
    cases cval with
    | none => exact ⟨h1, h2, h3, h4, h5, h6f⟩
    | some sv =>
      simp only [contactSocialStep]
      by_cases hok : (!sv.isEmpty && !pyStartswith sv noDataPrefix) = true
      · have hnd : pyStartswith sv noDataPrefix = false := by
          have hh := (Bool.and_eq_true _ _).mp hok
          simpa using hh.2
        rw [if_pos hok]
        by_cases hf : pyContains st (("Facebook").toList) = true
        · rw [if_pos hf]
          exact ⟨h1, h2, sentinelFreeField_of_not_noData hnd, h4, h5, h6f⟩
        · rw [if_neg hf]
          by_cases hi : pyContains st (("Instagram").toList) = true
          · rw [if_pos hi]
            exact ⟨h1, h2, h3, sentinelFreeField_of_not_noData hnd, h5, h6f⟩
          · rw [if_neg hi]
            by_cases htw : pyContains st (("Twitter").toList) = true
            · rw [if_pos htw]
              exact ⟨h1, h2, h3, h4, sentinelFreeField_of_not_noData hnd, h6f⟩
            · rw [if_neg htw]
              exact ⟨h1, h2, h3, h4, h5, h6f⟩
      · rw [if_neg hok]
        exact ⟨h1, h2, h3, h4, h5, h6f⟩

theorem foldl_inv {β : Type} (step : DetailedVoterRecord → β →
    DetailedVoterRecord)
    (hstep : ∀ r c, sentinelFreeC1 r → sentinelFreeC1 (step r c)) :
    ∀ (cs : List β) (r : DetailedVoterRecord), sentinelFreeC1 r →
      sentinelFreeC1 (cs.foldl step r)
  | [], _, h => h
  | c :: cs, r, h => foldl_inv step hstep cs (step r c) (hstep r c h)

/-- C1: the sentinel-filtered fields (mobile and landline phone, the three
social handles, the jurisdictional voter id) never receive a value equal to
or beginning with the site's "No Data Provided" sentinel: both the Contact
Info extractor and the Voter Identification extractor preserve
sentinel-freedom of those six fields. -/
theorem claim_C1_sentinel_filter (ca : ContactArticle) (ia : IdentArticle)
    (r : DetailedVoterRecord) (h : sentinelFreeC1 r) :
    sentinelFreeC1 (extractContactInfo ca r) ∧
    sentinelFreeC1 (extractVoterIdentification ia r) := by
  constructor
  · rcases ca with ⟨phones, pa, pz, sa, sz, socials⟩
    simp only [extractContactInfo]
    apply foldl_inv contactSocialStep contactSocialStep_inv
    have hp := foldl_inv contactPhoneStep contactPhoneStep_inv phones r h
    obtain ⟨h1, h2, h3, h4, h5, h6f⟩ := hp
    cases pa <;> cases pz <;> cases sa <;> cases sz <;>
      exact ⟨h1, h2, h3, h4, h5, h6f⟩
  · obtain ⟨h1, h2, h3, h4, h5, h6f⟩ := h
    rcases ia with ⟨v1, v2, v3, v4, v5⟩
    rcases v4 with _ | v
    · cases v1 <;> cases v2 <;> cases v3 <;> cases v5 <;>
        exact ⟨h1, h2, h3, h4, h5, h6f⟩
    · simp only [extractVoterIdentification]
      by_cases hv : pyStartswith v noDataPrefix = false
      · cases v1 <;> cases v2 <;> cases v3 <;> cases v5 <;>
          · rw [if_pos (by simp [hv])]
            exact ⟨h1, h2, h3, h4, h5, sentinelFreeField_of_not_noData hv⟩
      · have hv2 : pyStartswith v noDataPrefix = true := by
          simpa using hv
        cases v1 <;> cases v2 <;> cases v3 <;> cases v5 <;>
          · rw [if_neg (by simp [hv2])]
            exact ⟨h1, h2, h3, h4, h5, h6f⟩

/-- An article whose only phone container carries the sentinel value, used
by the C1 witness. -/
def c1Article : ContactArticle :=
  { phones := [{ h6 := some (("Mobile Phone").toList),
                 lblPhone := some (("No Data Provided").toList),
                 lblTRC := some (("80").toList) }] }

/-- An identification article carrying the sentinel, for the C1 witness. -/
def c1Ident : IdentArticle :=
  { lblRegistrationId := some (("No Data Provided").toList) }

/-- C1 witness: applying the invariant to the empty record and articles that
offer only sentinel values. -/
theorem claim_C1_witness :
    sentinelFreeC1 (extractContactInfo c1Article { name := [] }) ∧
    sentinelFreeC1 (extractVoterIdentification c1Ident { name := [] }) :=
  claim_C1_sentinel_filter c1Article c1Ident { name := [] }
    ⟨sentinelFreeField_none, sentinelFreeField_none, sentinelFreeField_none,
     sentinelFreeField_none, sentinelFreeField_none, sentinelFreeField_none⟩

/-- C6 witness: the first clause applied to the concrete row `c6Row`. -/
theorem claim_C6_witness :
    ({ name := ("ABE LINCOLN").toList, address := ("10 ELM ST").toList,
        city := ("SPRINGFIELD").toList, state := ("IL").toList,
        zip_code := ("62704").toList, phone := some [],
        date_of_birth := some [], calculated_party := some [],
        view_voter_url :=
          some (recordUrlPrefix ++ ("12345").toList) } :
        VoterRecord).view_voter_url =
      some (recordUrlPrefix ++ ("12345").toList) :=
  claim_C6_detail_reference.1 c6Row _ (("12345").toList) (by decide)
    (by decide)

/-- C2: a record whose `birthday` was set by the Personal Info extractor is
overwritten by the generic fallback when a label containing "birthday"
arrives, while `first_name` (whose branch has the usual guard) is retained:
the precedence of `'birthday' in label_lower or 'birth' in label_lower and
not detailed_record.birthday` applies the already-set guard only to the
second disjunct. -/
theorem claim_C2_birthday_overwritten :
    (extractPersonalInfo { lblBirthday := some (("1/1/1980").toList) }
        { name := [] }).birthday = some (("1/1/1980").toList) ∧
    (genericInfo
        (extractPersonalInfo { lblBirthday := some (("1/1/1980").toList) }
          { name := [] })
        [((("Birthday").toList), (("2/2/1990").toList))]).birthday =
      some (("2/2/1990").toList) ∧
    (genericInfo
        (extractPersonalInfo { lblFirstName := some (("JOHN").toList) }
          { name := [] })
        [((("First Name").toList), (("BOB").toList))]).first_name =
      some (("JOHN").toList) := by
  refine ⟨by decide, by decide, by decide⟩

/-- Substring containment is monotone along prefixes: if `a` starts with
`b`, a string containing `a` also contains `b`. -/
theorem pyContains_mono : ∀ (l a b : Str), pyStartswith a b = true →
    pyContains l a = true → pyContains l b = true
  | [], a, b, hab, hla => by
    cases a with
    | nil =>
      cases b with
      | nil => rfl
      | cons x xs => exact absurd hab (by simp [pyStartswith])
    | cons x xs => exact absurd hla (by simp [pyContains])
  | c :: t, a, b, hab, hla => by
    simp only [pyContains, Bool.or_eq_true] at hla ⊢
    cases hla with
    | inl hs => exact Or.inl (pyStartswith_trans (c :: t) a b hab hs)
    | inr hm => exact Or.inr (pyContains_mono t a b hab hm)

/-- Labels that route the generic chain into a branch reading a nonexistent
`DetailedVoterRecord` attribute. -/
def genericUnsafeLabel (l : Str) : Bool :=
  pyContains l (("email").toList) ||
  (pyContains l (("phone").toList) && pyContains l (("home").toList)) ||
  (pyContains l (("phone").toList) && pyContains l (("work").toList)) ||
  (pyContains l (("phone").toList) && pyContains l (("cell").toList)) ||
  pyContains l (("address").toList) || pyContains l (("city").toList) ||
  pyContains l (("state").toList) || pyContains l (("zip").toList) ||
  pyContains l (("party").toList) || pyContains l (("voter id").toList) ||
  pyContains l (("employer").toList) || pyContains l (("occupation").toList)

/-- Labels free of every key that an earlier (assigning) branch of the chain
tests for. -/
def genericSafeKeyFree (l : Str) : Bool :=
  !pyContains l (("first name").toList) &&
  !pyContains l (("middle name").toList) &&
  !pyContains l (("last name").toList) &&
  !pyContains l (("precinct").toList) &&
  !pyContains l (("registration").toList) &&
  !pyContains l (("birth").toList) &&
  !pyContains l (("gender").toList)

/-- Processing a match whose (stripped, lowered) label contains one of the
unsafe keys and none of the earlier assigning keys raises `AttributeError`
before any assignment: the step is an error and the record is unchanged. -/
theorem processMatch_err (r : DetailedVoterRecord) (label value : Str)
    (hval : genericValueOk (pyStrip value) = true)
    (hbadkey : genericUnsafeLabel (pyLower (pyStrip label)) = true)
    (hsafe : genericSafeKeyFree (pyLower (pyStrip label)) = true) :
    processMatch r (label, value) = .err r := by
  simp only [genericSafeKeyFree, Bool.and_eq_true, Bool.not_eq_true'] at hsafe
  obtain ⟨⟨⟨⟨⟨⟨hfn, hmn⟩, hln⟩, hpr⟩, hrg⟩, hbi⟩, hge⟩ := hsafe
  have hbd : pyContains (pyLower (pyStrip label)) (("birthday").toList) =
      false := by
    cases hcb : pyContains (pyLower (pyStrip label)) (("birthday").toList)
    · rfl
    · have hmono := pyContains_mono (pyLower (pyStrip label))
        (("birthday").toList) (("birth").toList) (by decide) hcb
      rw [hbi] at hmono
      exact absurd hmono (by simp)
  have n1 : ¬(pyContains (pyLower (pyStrip label)) (("first name").toList) &&
      falsyOpt r.first_name) = true := by
    simp only [hfn, Bool.false_and]
    exact Bool.false_ne_true
  have n2 : ¬(pyContains (pyLower (pyStrip label)) (("middle name").toList) &&
      falsyOpt r.middle_name) = true := by
    simp only [hmn, Bool.false_and]
    exact Bool.false_ne_true
  have n3 : ¬(pyContains (pyLower (pyStrip label)) (("last name").toList) &&
      falsyOpt r.last_name) = true := by
    simp only [hln, Bool.false_and]
    exact Bool.false_ne_true
  have n13 : ¬(pyContains (pyLower (pyStrip label)) (("precinct").toList) &&
      falsyOpt r.precinct) = true := by
    simp only [hpr, Bool.false_and]
    exact Bool.false_ne_true
  have n15 : ¬(pyContains (pyLower (pyStrip label))
        (("registration").toList) &&
      pyContains (pyLower (pyStrip label)) (("date").toList) &&
      falsyOpt r.registration_date) = true := by
    simp only [hrg, Bool.false_and]
    exact Bool.false_ne_true
  have n16 : ¬(pyContains (pyLower (pyStrip label)) (("birthday").toList) ||
      (pyContains (pyLower (pyStrip label)) (("birth").toList) &&
        falsyOpt r.birthday)) = true := by
    simp only [hbd, hbi, Bool.false_and, Bool.false_or]
    exact Bool.false_ne_true
  have n17 : ¬(pyContains (pyLower (pyStrip label)) (("gender").toList) &&
      falsyOpt r.gender) = true := by
    simp only [hge, Bool.false_and]
    exact Bool.false_ne_true
  simp only [processMatch]
  rw [if_pos hval]
  by_cases u1 : pyContains (pyLower (pyStrip label)) (("email").toList) = true
  · rw [if_neg n1, if_neg n2, if_neg n3, if_pos u1]
  · by_cases u2 : (pyContains (pyLower (pyStrip label)) (("phone").toList) && pyContains (pyLower (pyStrip label)) (("home").toList)) = true
    · rw [if_neg n1, if_neg n2, if_neg n3, if_neg u1, if_pos u2]
    · by_cases u3 : (pyContains (pyLower (pyStrip label)) (("phone").toList) && pyContains (pyLower (pyStrip label)) (("work").toList)) = true
      · rw [if_neg n1, if_neg n2, if_neg n3, if_neg u1, if_neg u2, if_pos u3]
      · by_cases u4 : (pyContains (pyLower (pyStrip label)) (("phone").toList) && pyContains (pyLower (pyStrip label)) (("cell").toList)) = true
        · rw [if_neg n1, if_neg n2, if_neg n3, if_neg u1, if_neg u2, if_neg u3, if_pos u4]
        · by_cases u5 : pyContains (pyLower (pyStrip label)) (("address").toList) = true
          · rw [if_neg n1, if_neg n2, if_neg n3, if_neg u1, if_neg u2, if_neg u3, if_neg u4, if_pos u5]
          · by_cases u6 : pyContains (pyLower (pyStrip label)) (("city").toList) = true
            · rw [if_neg n1, if_neg n2, if_neg n3, if_neg u1, if_neg u2, if_neg u3, if_neg u4, if_neg u5, if_pos u6]
            · by_cases u7 : pyContains (pyLower (pyStrip label)) (("state").toList) = true
              · rw [if_neg n1, if_neg n2, if_neg n3, if_neg u1, if_neg u2, if_neg u3, if_neg u4, if_neg u5, if_neg u6, if_pos u7]
              · by_cases u8 : pyContains (pyLower (pyStrip label)) (("zip").toList) = true
                · rw [if_neg n1, if_neg n2, if_neg n3, if_neg u1, if_neg u2, if_neg u3, if_neg u4, if_neg u5, if_neg u6, if_neg u7, if_pos u8]
                · by_cases u9 : pyContains (pyLower (pyStrip label)) (("party").toList) = true
                  · rw [if_neg n1, if_neg n2, if_neg n3, if_neg u1, if_neg u2, if_neg u3, if_neg u4, if_neg u5, if_neg u6, if_neg u7, if_neg u8, if_pos u9]
                  · by_cases u10 : pyContains (pyLower (pyStrip label)) (("voter id").toList) = true
                    · rw [if_neg n1, if_neg n2, if_neg n3, if_neg u1, if_neg u2, if_neg u3, if_neg u4, if_neg u5, if_neg u6, if_neg u7, if_neg u8, if_neg u9, if_neg n13, if_pos u10]
                    · by_cases u11 : pyContains (pyLower (pyStrip label)) (("employer").toList) = true
                      · rw [if_neg n1, if_neg n2, if_neg n3, if_neg u1, if_neg u2, if_neg u3, if_neg u4, if_neg u5, if_neg u6, if_neg u7, if_neg u8, if_neg u9, if_neg n13, if_neg u10, if_neg n15, if_neg n16, if_neg n17, if_pos u11]
                      · by_cases u12 : pyContains (pyLower (pyStrip label)) (("occupation").toList) = true
                        · rw [if_neg n1, if_neg n2, if_neg n3, if_neg u1, if_neg u2, if_neg u3, if_neg u4, if_neg u5, if_neg u6, if_neg u7, if_neg u8, if_neg u9, if_neg n13, if_neg u10, if_neg n15, if_neg n16, if_neg n17, if_neg u11, if_pos u12]
                        · exfalso
                          have eu1 : pyContains (pyLower (pyStrip label)) (("email").toList) = false :=
                            eq_false_of_ne_true u1
                          have eu2 : (pyContains (pyLower (pyStrip label)) (("phone").toList) && pyContains (pyLower (pyStrip label)) (("home").toList)) = false :=
                            eq_false_of_ne_true u2
                          have eu3 : (pyContains (pyLower (pyStrip label)) (("phone").toList) && pyContains (pyLower (pyStrip label)) (("work").toList)) = false :=
                            eq_false_of_ne_true u3
                          have eu4 : (pyContains (pyLower (pyStrip label)) (("phone").toList) && pyContains (pyLower (pyStrip label)) (("cell").toList)) = false :=
                            eq_false_of_ne_true u4
                          have eu5 : pyContains (pyLower (pyStrip label)) (("address").toList) = false :=
                            eq_false_of_ne_true u5
                          have eu6 : pyContains (pyLower (pyStrip label)) (("city").toList) = false :=
                            eq_false_of_ne_true u6
                          have eu7 : pyContains (pyLower (pyStrip label)) (("state").toList) = false :=
                            eq_false_of_ne_true u7
                          have eu8 : pyContains (pyLower (pyStrip label)) (("zip").toList) = false :=
                            eq_false_of_ne_true u8
                          have eu9 : pyContains (pyLower (pyStrip label)) (("party").toList) = false :=
                            eq_false_of_ne_true u9
                          have eu10 : pyContains (pyLower (pyStrip label)) (("voter id").toList) = false :=
                            eq_false_of_ne_true u10
                          have eu11 : pyContains (pyLower (pyStrip label)) (("employer").toList) = false :=
                            eq_false_of_ne_true u11
                          have eu12 : pyContains (pyLower (pyStrip label)) (("occupation").toList) = false :=
                            eq_false_of_ne_true u12
                          simp only [genericUnsafeLabel, eu1, eu2, eu3, eu4, eu5, eu6, eu7, eu8, eu9, eu10, eu11, eu12,
                            Bool.false_or, Bool.or_false, Bool.false_eq_true] at hbadkey


/-- `genericRun` over an appended match list runs the prefix first and
continues only while no error occurred. -/
theorem genericRun_append (r : DetailedVoterRecord) :
    ∀ (ms1 ms2 : List (Str × Str)),
      genericRun r (ms1 ++ ms2) =
        match genericRun r ms1 with
        | .ok r' => genericRun r' ms2
        | .err r' => .err r' := by
  intro ms1
  induction ms1 generalizing r with
  | nil => intro ms2; rfl
  | cons m ms ih =>
    intro ms2
    have hg : genericRun r ((m :: ms) ++ ms2) =
        (match processMatch r m with
         | .ok r' => genericRun r' (ms ++ ms2)
         | .err r' => .err r') := rfl
    have hg2 : genericRun r (m :: ms) =
        (match processMatch r m with
         | .ok r' => genericRun r' ms
         | .err r' => .err r') := rfl
    rw [hg, hg2]
    cases processMatch r m with
    | ok r' => exact ih r' ms2
    | err r' => rfl

/-- C10 amended: a generic-extractor match whose value passes the sentinel
filter and whose (stripped, lowered) label contains one of the unsafe keys
('email', 'address', 'city', 'state', 'zip', 'party', 'voter id',
'employer', 'occupation', or 'phone' together with 'home'/'work'/'cell')
while containing none of the earlier assigning keys, raises `AttributeError`
for a nonexistent record attribute; the surrounding handler catches it, so
such a match never populates the record, processing of the article stops at
that match (later pairs unapplied), and every field set before that point is
kept unchanged. -/
theorem claim_C10_generic_dead_branches (r r1 : DetailedVoterRecord)
    (ms1 ms2 : List (Str × Str)) (label value : Str)
    (hrun : genericRun r ms1 = .ok r1)
    (hval : genericValueOk (pyStrip value) = true)
    (hbadkey : genericUnsafeLabel (pyLower (pyStrip label)) = true)
    (hsafe : genericSafeKeyFree (pyLower (pyStrip label)) = true) :
    genericInfo r (ms1 ++ (label, value) :: ms2) = r1 := by
  have herr := processMatch_err r1 label value hval hbadkey hsafe
  rw [genericInfo, genericRun_append, hrun]
  show (match (match processMatch r1 (label, value) with
    | .ok r' => genericRun r' ms2
    | .err r' => GenStep.err r') with
    | .ok r' => r'
    | .err r' => r') = r1
  rw [herr]

/-- C10 counterexample: a match whose label contains 'email' but also
'first name' (with `first_name` unset) takes the first-name branch, raises
no `AttributeError`, and populates the record — refuting the claim that any
match whose label contains one of the listed keys reads a nonexistent
attribute and can never populate the record. -/
theorem claim_C10_counterexample :
    processMatch { name := [] }
        ((("first name email").toList), (("x").toList)) =
      .ok { name := [], first_name := some (("x").toList) } ∧
    ({ name := [], first_name := some (("x").toList) } :
        DetailedVoterRecord).first_name ≠ none := by
  refine ⟨by decide, by decide⟩

/-- C10 witness: the amended theorem at a concrete article whose matches are
a first-name pair, then an 'Email' pair, then a last-name pair: the email
match aborts the article, the first name is kept, the last name is never
applied. -/
theorem claim_C10_witness :
    genericInfo { name := [] }
      ([((("First Name").toList), (("JOHN").toList))] ++
        ((("Email").toList), (("jq@example.org").toList)) ::
        [((("Last Name").toList), (("DOE").toList))]) =
      { name := [], first_name := some (("JOHN").toList) } :=
  claim_C10_generic_dead_branches { name := [] }
    { name := [], first_name := some (("JOHN").toList) }
    [((("First Name").toList), (("JOHN").toList))]
    [((("Last Name").toList), (("DOE").toList))]
    (("Email").toList) (("jq@example.org").toList)
    (by decide) (by decide) (by decide) (by decide)

/-- C8 counterexample: a direct-URL detail visit (a new tab is always
opened) whose sanity check fails returns no record — but the freshly opened
tab is not closed before returning, refuting the claim's "whenever a new
browsing context (tab) was opened for the detail page, that context is
closed before the driver returns". -/
theorem claim_C8_counterexample :
    extractDetailedInfoForRow
        { hasUrl := true, buttonFound := false, clickOpensTab := false,
          markerPresent := false, extracted := some { name := [] } } =
      { result := none, openedTab := true, closedTab := false,
        wentBack := false } := by
  decide

/-- C8 amended: a failed sanity check always aborts with an absent record;
when the sanity check passes, a newly opened tab is closed before returning
and an in-place navigation goes back to the results list — but when the
sanity check fails after a tab was opened, that tab is left open. -/
theorem claim_C8_sanity_and_cleanup (nav : DetailNav) :
    (nav.markerPresent = false →
      (extractDetailedInfoForRow nav).result = none) ∧
    (nav.markerPresent = true →
      ((extractDetailedInfoForRow nav).openedTab = true →
        (extractDetailedInfoForRow nav).closedTab = true) ∧
      (nav.hasUrl = false → nav.buttonFound = true →
        nav.clickOpensTab = false →
        (extractDetailedInfoForRow nav).wentBack = true)) ∧
    (nav.markerPresent = false →
      (extractDetailedInfoForRow nav).openedTab = true →
      (extractDetailedInfoForRow nav).closedTab = false) := by
  rcases nav with ⟨h, b, c, m, e⟩
  cases h <;> cases b <;> cases c <;> cases m <;>
    simp [extractDetailedInfoForRow]

/-- C8 witness: the amended theorem at the concrete failed-sanity-check
visit. -/
theorem claim_C8_witness :
    (extractDetailedInfoForRow
      { hasUrl := true, buttonFound := false, clickOpensTab := false,
        markerPresent := false, extracted := some { name := [] } }).result =
      none :=
  (claim_C8_sanity_and_cleanup
    { hasUrl := true, buttonFound := false, clickOpensTab := false,
      markerPresent := false, extracted := some { name := [] } }).1 rfl

/-- Name-column cells of the C9 scenario: five populated rows starting at
spreadsheet row 2. -/
def c9Names : List (Option Str) :=
  [some (("ALICE").toList), some (("BOB").toList), some (("CAROL").toList),
   some (("DAN").toList), some (("EVE").toList)]

/-- Results-start-column cells of the C9 scenario: the first two data rows
(spreadsheet rows 2 and 3) already hold data. -/
def c9Cells : Nat → Option Str :=
  fun n => if n == 2 || n == 3 then some (("done").toList) else none

/-- Search oracle of the C9 scenario: every searched name yields one
result. -/
def c9Search : Str → List VoterRecord :=
  fun nm => [{ name := nm, address := [], city := [], state := [],
               zip_code := [] }]

/-- C9: a row counts as already processed exactly when its
results-start-column cell holds a value that is non-empty after stripping;
and in the 5-row scenario where data rows 1 and 2 (spreadsheet rows 2, 3)
already hold data, a `--row-limit 3` run skips those two rows without
searching them, searches the third (row 4), stops at the limit, and makes
exactly one spreadsheet update call. -/
theorem claim_C9_row_limit_skip :
    (∀ cell : Option Str, checkRowAlreadyProcessed cell = true ↔
      ∃ v, cell = some v ∧ pyStrip v ≠ []) ∧
    sheetLoop (some 3) c9Cells c9Search (readColumn (some 3) c9Names 2 0) 0 =
      { processedCount := 3, searchedRows := [4], updatedRows := [4] } := by
  constructor
  · intro cell
    cases cell with
    | none => simp [checkRowAlreadyProcessed]
    | some v =>
      simp [checkRowAlreadyProcessed, List.isEmpty_iff]
  · decide

/-- C9 witness: the processed test applied to a concrete populated cell and
a concrete blank cell. -/
theorem claim_C9_witness :
    checkRowAlreadyProcessed (some (("done").toList)) = true ∧
    ¬checkRowAlreadyProcessed (some ((" ").toList)) = true :=
  ⟨(claim_C9_row_limit_skip.1 (some (("done").toList))).mpr
      ⟨(("done").toList), rfl, by decide⟩,
    fun hc => by
      obtain ⟨v, hv, hne⟩ := (claim_C9_row_limit_skip.1 _).mp hc
      cases hv
      exact hne (by decide)⟩

/-- Unfolding `splitNl` at a newline head. -/
theorem splitNl_cons_nl (t : Str) : splitNl ('\n' :: t) = [] :: splitNl t := by
  rw [splitNl, if_pos rfl]

/-- Unfolding `splitNl` at a non-newline head. -/
theorem splitNl_cons (c : Char) (t : Str) (hc : ¬c = '\n') :
    splitNl (c :: t) = (splitNl t).modifyHead (c :: ·) := by
  rw [splitNl, if_neg hc]

/-- `splitNl` never returns the empty list of lines. -/
theorem splitNl_ne_nil : ∀ s : Str, splitNl s ≠ []
  | [] => by simp [splitNl]
  | c :: t => by
    by_cases hc : c = '\n'
    · subst hc
      rw [splitNl_cons_nl]
      simp
    · rw [splitNl_cons c t hc]
      cases h : splitNl t with
      | nil => exact absurd h (splitNl_ne_nil t)
      | cons a l => simp [List.modifyHead]

/-- Without a newline the split is the single whole line. -/
theorem splitNl_no_newline : ∀ s : Str, '\n' ∉ s → splitNl s = [s]
  | [], _ => rfl
  | c :: t, h => by
    have hc : ¬c = '\n' := fun he => h (he ▸ List.mem_cons_self c t)
    have ht : '\n' ∉ t := fun hm => h (List.mem_cons_of_mem c hm)
    rw [splitNl_cons c t hc, splitNl_no_newline t ht]
    rfl

/-- Splitting across an explicit newline splits into the two sides. -/
theorem splitNl_append : ∀ (a b : Str),
    splitNl (a ++ '\n' :: b) = splitNl a ++ splitNl b
  | [], b => by
    rw [List.nil_append, splitNl_cons_nl]
    rfl
  | c :: a', b => by
    by_cases hc : c = '\n'
    · subst hc
      rw [List.cons_append, splitNl_cons_nl, splitNl_cons_nl,
        splitNl_append a' b]
      rfl
    · rw [List.cons_append, splitNl_cons c (a' ++ '\n' :: b) hc,
        splitNl_cons c a' hc, splitNl_append a' b]
      cases h : splitNl a' with
      | nil => exact absurd h (splitNl_ne_nil a')
      | cons x l => simp [h, List.modifyHead]

/-- A character is line-visible when it is not whitespace. -/
def nwChar (c : Char) : Bool := !pyIsSpace c

/-- A line is non-empty (non-blank) when it has a non-whitespace char. -/
def nonBlankLine (l : Str) : Bool := l.any nwChar

/-- Number of non-empty lines of a rendered text. -/
def countNB (s : Str) : Nat := (splitNl s).countP nonBlankLine

/-- Some line of the split is non-blank iff the text has a non-whitespace
character. -/
theorem any_lines_eq : ∀ s : Str,
    (splitNl s).any nonBlankLine = s.any nwChar
  | [] => by simp [splitNl, nonBlankLine]
  | c :: t => by
    by_cases hc : c = '\n'
    · subst hc
      rw [splitNl_cons_nl, List.any_cons, any_lines_eq t]
      have hnw : nwChar '\n' = false := by decide
      show (nonBlankLine [] || t.any nwChar) = ('\n' :: t).any nwChar
      rw [List.any_cons, hnw]
      rfl
    · rw [splitNl_cons c t hc]
      cases h : splitNl t with
      | nil => exact absurd h (splitNl_ne_nil t)
      | cons x l =>
        have ihx := any_lines_eq t
        rw [h, List.any_cons] at ihx
        show ((nwChar c || nonBlankLine x) || l.any nonBlankLine) =
          (nwChar c || t.any nwChar)
        rw [Bool.or_assoc, ihx]

/-- The head surviving a `dropWhile` fails the predicate. -/
theorem dropWhile_head_false (p : α → Bool) : ∀ (l : List α) (c : α)
    (r : List α), l.dropWhile p = c :: r → p c = false
  | [], c, r, h => by simp [List.dropWhile] at h
  | a :: t, c, r, h => by
    rw [List.dropWhile] at h
    cases hp : p a
    · rw [hp] at h
      injection h with h1 _
      rw [← h1]
      exact hp
    · rw [hp] at h
      exact dropWhile_head_false p t c r h

/-- `dropWhile` yields a suffix. -/
theorem dropWhile_suffix (p : α → Bool) : ∀ l : List α, l.dropWhile p <:+ l
  | [] => by simp [List.dropWhile]
  | a :: t => by
    rw [List.dropWhile]
    cases hp : p a
    · exact List.suffix_refl _
    · exact (dropWhile_suffix p t).trans (List.suffix_cons a t)

/-- The stripped string is a prefix of the left-stripped string. -/
theorem pyStrip_prefix (s : Str) : pyStrip s <+: pyLstrip s := by
  have h := dropWhile_suffix pyIsSpace (pyLstrip s).reverse
  have h2 : (((pyLstrip s).reverse.dropWhile pyIsSpace).reverse).reverse <:+
      (pyLstrip s).reverse := by
    rw [List.reverse_reverse]
    exact h
  exact List.reverse_suffix.mp h2

/-- The first character of a non-empty stripped string is not whitespace. -/
theorem pyStrip_head (s : Str) : ∀ (c : Char) (t' : Str),
    pyStrip s = c :: t' → pyIsSpace c = false := by
  intro c t' h
  obtain ⟨r, hr⟩ := pyStrip_prefix s
  rw [h] at hr
  have hdw : pyLstrip s = c :: (t' ++ r) := by
    rw [← hr]
    rfl
  exact dropWhile_head_false pyIsSpace s c _ hdw

/-- The last character of a non-empty stripped string is not whitespace. -/
theorem pyStrip_last (s : Str) : ∀ (c : Char) (t' : Str),
    (pyStrip s).reverse = c :: t' → pyIsSpace c = false := by
  intro c t' h
  have he : (pyStrip s).reverse =
      ((pyLstrip s).reverse).dropWhile pyIsSpace := by
    show (((pyLstrip s).reverse.dropWhile pyIsSpace).reverse).reverse = _
    rw [List.reverse_reverse]
  rw [he] at h
  exact dropWhile_head_false pyIsSpace _ c t' h

/-- The stripped string occurs inside the original. -/
theorem pyStrip_infix (s : Str) : ∃ w v, s = w ++ pyStrip s ++ v := by
  obtain ⟨r, hr⟩ := pyStrip_prefix s
  obtain ⟨w, hw⟩ := dropWhile_suffix pyIsSpace s
  refine ⟨w, r, ?_⟩
  rw [List.append_assoc, hr]
  exact hw.symm

/-- A string whose strip still splits into two or more lines has at least
two non-empty lines. -/
theorem countNB_ge_two (t : Str)
    (hlen : 2 ≤ (splitNl (pyStrip t)).length) : 2 ≤ countNB t := by
  have hnl : '\n' ∈ pyStrip t := by
    by_contra hn
    rw [splitNl_no_newline _ hn] at hlen
    simp at hlen
  obtain ⟨p, q, hpq⟩ := List.append_of_mem hnl
  have hu_ne : pyStrip t ≠ [] := by
    intro h0
    rw [h0] at hnl
    simp at hnl
  obtain ⟨c, t0, hu⟩ : ∃ c t0, pyStrip t = c :: t0 := by
    cases hx : pyStrip t with
    | nil => exact absurd hx hu_ne
    | cons a b => exact ⟨a, b, rfl⟩
  have hc : pyIsSpace c = false := pyStrip_head t c t0 hu
  obtain ⟨p', rfl⟩ : ∃ p', p = c :: p' := by
    cases p with
    | nil =>
      rw [hpq, List.nil_append] at hu
      injection hu with h1 _
      rw [← h1] at hc
      exact absurd hc (by decide)
    | cons a p' =>
      rw [hpq, List.cons_append] at hu
      injection hu with h1 _
      exact ⟨p', by rw [h1]⟩
  obtain ⟨d, rev', hrev⟩ : ∃ d rev', (pyStrip t).reverse = d :: rev' := by
    cases hx : (pyStrip t).reverse with
    | nil =>
      rw [List.reverse_eq_nil_iff] at hx
      exact absurd hx hu_ne
    | cons a b => exact ⟨a, b, rfl⟩
  have hd : pyIsSpace d = false := pyStrip_last t d rev' hrev
  have hurev : (pyStrip t).reverse =
      q.reverse ++ '\n' :: ((c :: p').reverse) := by
    rw [hpq]
    simp [List.reverse_append, List.append_assoc]
  have hqnw : q.any nwChar = true := by
    cases hqr : q.reverse with
    | nil =>
      rw [hqr, List.nil_append] at hurev
      rw [hurev] at hrev
      injection hrev with h1 _
      rw [← h1] at hd
      exact absurd hd (by decide)
    | cons f qr =>
      rw [hqr, List.cons_append] at hurev
      rw [hurev] at hrev
      injection hrev with h1 _
      have hfq : f ∈ q := by
        have hm : f ∈ q.reverse := by
          rw [hqr]
          exact List.mem_cons_self f qr
        exact List.mem_reverse.mp hm
      refine List.any_eq_true.mpr ⟨f, hfq, ?_⟩
      show nwChar f = true
      rw [nwChar, h1, hd]
      rfl
  have hpnw : (c :: p').any nwChar = true := by
    have hcnw : nwChar c = true := by
      rw [nwChar, hc]
      rfl
    simp [List.any_cons, hcnw]
  obtain ⟨w, v, hwv⟩ := pyStrip_infix t
  have ht : t = (w ++ (c :: p')) ++ '\n' :: (q ++ v) := by
    rw [hwv, hpq]
    simp [List.append_assoc]
  have hgoal : countNB t =
      (splitNl (w ++ (c :: p'))).countP nonBlankLine +
      (splitNl (q ++ v)).countP nonBlankLine := by
    rw [countNB, ht, splitNl_append, List.countP_append]
  rw [hgoal]
  have c1 : 0 < (splitNl (w ++ (c :: p'))).countP nonBlankLine := by
    rw [List.countP_pos_iff]
    have hany : (splitNl (w ++ (c :: p'))).any nonBlankLine = true := by
      rw [any_lines_eq, List.any_append, hpnw, Bool.or_true]
    exact List.any_eq_true.mp hany
  have c2 : 0 < (splitNl (q ++ v)).countP nonBlankLine := by
    rw [List.countP_pos_iff]
    have hany : (splitNl (q ++ v)).any nonBlankLine = true := by
      rw [any_lines_eq, List.any_append, hqnw, Bool.true_or]
    exact List.any_eq_true.mp hany
  omega

/-- Stripping a string that begins with a non-whitespace character never
yields the empty string. -/
theorem pyStrip_ne_nil_of_head (c : Char) (x : Str)
    (hc : pyIsSpace c = false) : pyStrip (c :: x) ≠ [] := by
  have hdw : (c :: x).dropWhile pyIsSpace = c :: x := by
    rw [List.dropWhile, hc]
  have hkey : ∀ l : List Char, (l ++ [c]).dropWhile pyIsSpace ≠ [] := by
    intro l
    induction l with
    | nil =>
      rw [List.nil_append, List.dropWhile, hc]
      simp
    | cons a l' ih =>
      rw [List.cons_append, List.dropWhile]
      cases hpa : pyIsSpace a
      · simp
      · exact ih
  intro h0
  rw [pyStrip, hdw] at h0
  rw [List.reverse_eq_nil_iff] at h0
  have := hkey x.reverse
  rw [show x.reverse ++ [c] = (c :: x).reverse by simp] at this
  exact this h0

/-- A row whose code lines are two or more parses into a record. -/
theorem parseRow_isSome_of_two_lines (r : Row)
    (h2 : 2 ≤ (codeLines r).length) : (parseRow r).isSome = true := by
  have hu_ne : pyStrip r.text ≠ [] := by
    intro h0
    have : codeLines r = [[]] := by
      rw [codeLines, h0]
      rfl
    rw [this] at h2
    simp at h2
  obtain ⟨c, t0, hu⟩ : ∃ c t0, pyStrip r.text = c :: t0 := by
    cases hx : pyStrip r.text with
    | nil => exact absurd hx hu_ne
    | cons a b => exact ⟨a, b, rfl⟩
  have hc : pyIsSpace c = false := pyStrip_head r.text c t0 hu
  have hcn : ¬c = '\n' := by
    intro he
    rw [he] at hc
    exact absurd hc (by decide)
  obtain ⟨x, l, hxl⟩ : ∃ x l, splitNl t0 = x :: l := by
    cases hx : splitNl t0 with
    | nil => exact absurd hx (splitNl_ne_nil t0)
    | cons a b => exact ⟨a, b, rfl⟩
  have hlines : codeLines r = (c :: x) :: l := by
    rw [codeLines, hu, splitNl, if_neg hcn, hxl]
    rfl
  have hfirst : (pyStrip (c :: x)).isEmpty = false := by
    cases hs : pyStrip (c :: x) with
    | nil => exact absurd hs (pyStrip_ne_nil_of_head c x hc)
    | cons a b => rfl
  have hcond : (decide ((codeLines r).length < 2) ||
      (codeLines r).all fun l => (pyStrip l).isEmpty) = false := by
    have hdec : decide ((codeLines r).length < 2) = false := by
      simp only [decide_eq_false_iff_not]
      omega
    have hall : ((codeLines r).all fun l => (pyStrip l).isEmpty) = false := by
      rw [hlines, List.all_cons, hfirst, Bool.false_and]
    rw [hdec, hall]
    rfl
  rw [parseRow]
  simp only [hcond, Bool.false_eq_true, if_false]
  rfl

/-- `filterMap` preserves length when every element maps to `some`. -/
theorem filterMap_length_eq {α β : Type} (f : α → Option β) :
    ∀ l : List α, (∀ x ∈ l, (f x).isSome = true) →
      (l.filterMap f).length = l.length
  | [], _ => rfl
  | a :: l, h => by
    have ha := h a (List.mem_cons_self a l)
    cases hfa : f a with
    | none =>
      rw [hfa] at ha
      simp at ha
    | some b =>
      simp only [List.filterMap_cons, hfa, List.length_cons]
      rw [filterMap_length_eq f l (fun x hx => h x (List.mem_cons_of_mem a hx))]

/-- C7: a result row whose rendered text has fewer than two non-empty lines
is skipped and yields no record; and for a table whose row 0 is a header and
whose data rows split into at least two lines each, the parser produces
exactly one record per data row and none for the header. -/
theorem claim_C7_row_skipping :
    (∀ row : Row, countNB row.text < 2 → parseRow row = none) ∧
    (∀ (hdr : Row) (rows : List Row),
      (∀ r ∈ rows, 2 ≤ (codeLines r).length) →
      (extractResults 1 (hdr :: rows)).length = rows.length) := by
  constructor
  · intro row hlt
    have hlen : (codeLines row).length < 2 := by
      by_contra hge
      push_neg at hge
      have := countNB_ge_two row.text hge
      omega
    rw [parseRow]
    rw [if_pos (by rw [decide_eq_true hlen, Bool.true_or])]
  · intro hdr rows hall
    have he : extractResults 1 (hdr :: rows) = rows.filterMap parseRow := rfl
    rw [he]
    exact filterMap_length_eq parseRow rows
      (fun r hr => parseRow_isSome_of_two_lines r (hall r hr))

/-- C7 witness: a concrete two-row table (header plus one data row) and a
concrete one-line row. -/
theorem claim_C7_witness :
    parseRow ⟨(("   \n  ").toList), []⟩ = none ∧
    (extractResults 1
        [⟨(("Name Address City").toList), []⟩,
         ⟨(("JOHN DOE\n123 MAIN ST\nSPRINGFIELD IL 62704").toList),
           []⟩]).length = 1 :=
  ⟨claim_C7_row_skipping.1 ⟨(("   \n  ").toList), []⟩ (by decide),
    claim_C7_row_skipping.2 ⟨(("Name Address City").toList), []⟩
      [⟨(("JOHN DOE\n123 MAIN ST\nSPRINGFIELD IL 62704").toList), []⟩]
      (by decide)⟩

end GopLookup
